import Mathlib

set_option maxRecDepth 100000

/-!
Verification of the Four-Pillars (사주) analysis core against its
natural-language specification.

The development shallowly embeds the Python modules
`backend/saju/constants.py`, `elements.py`, `strength.py`,
`yong_shin.py`, `interactions.py` and `fortune.py`.
Symbolic characters (10 stems, 12 branches) and the five elements are
modelled as finite inductive types; real-valued scores are modelled as
rationals; Python `round(x, 1)` is modelled as rounding of `10*x` to an
integer and dividing by 10.  Definitions named `spec...` formalise the
wording of the specification and are compared with the embedded code.
-/

namespace Saju

/-- The five elements, in the fixed iteration order of `ELEMENTS`
(木 wood, 火 fire, 土 earth, 金 metal, 水 water). -/
inductive Element
  | wood
  | fire
  | earth
  | metal
  | water
deriving DecidableEq, Repr, Fintype

open Element

/-- `ELEMENTS = ["木", "火", "土", "金", "水"]` — the fixed iteration order. -/
def ELEMENTS : List Element := [wood, fire, earth, metal, water]

/-- The ten heavenly stems 甲乙丙丁戊己庚辛壬癸. -/
inductive Stem
  | jia
  | yi
  | bing
  | ding
  | wu
  | ji
  | geng
  | xin
  | ren
  | gui
deriving DecidableEq, Repr, Fintype

/-- The twelve earthly branches 子丑寅卯辰巳午未申酉戌亥. -/
inductive Branch
  | zi
  | chou
  | yin
  | mao
  | chen
  | si
  | wuB
  | wei
  | shen
  | you
  | xu
  | hai
deriving DecidableEq, Repr, Fintype

open Stem Branch

/-- `ELEMENT_GENERATES`: 木→火→土→金→水→木. -/
def ELEMENT_GENERATES : Element → Element
  | wood => fire
  | fire => earth
  | earth => metal
  | metal => water
  | water => wood

/-- `ELEMENT_CONTROLS`: 木→土→水→火→金→木. -/
def ELEMENT_CONTROLS : Element → Element
  | wood => earth
  | earth => water
  | water => fire
  | fire => metal
  | metal => wood

/-- `STEM_ELEMENT`. -/
def STEM_ELEMENT : Stem → Element
  | jia => wood
  | yi => wood
  | bing => fire
  | ding => fire
  | wu => earth
  | ji => earth
  | geng => metal
  | xin => metal
  | ren => water
  | gui => water

/-- `BRANCH_ELEMENT`. -/
def BRANCH_ELEMENT : Branch → Element
  | zi => water
  | chou => earth
  | yin => wood
  | mao => wood
  | chen => earth
  | si => fire
  | wuB => fire
  | wei => earth
  | shen => metal
  | you => metal
  | xu => earth
  | hai => water

/-- `HIDDEN_STEMS`: hidden-stem composition of each branch,
as ordered (stem, weight-in-days) pairs. -/
def HIDDEN_STEMS : Branch → List (Stem × ℕ)
  | zi => [(gui, 30)]
  | chou => [(ji, 18), (gui, 9), (xin, 3)]
  | yin => [(jia, 16), (bing, 7), (wu, 7)]
  | mao => [(yi, 30)]
  | chen => [(wu, 18), (yi, 9), (gui, 3)]
  | si => [(bing, 16), (geng, 7), (wu, 7)]
  | wuB => [(ding, 20), (ji, 10)]
  | wei => [(ji, 18), (ding, 9), (yi, 3)]
  | shen => [(geng, 16), (ren, 7), (wu, 7)]
  | you => [(xin, 30)]
  | xu => [(wu, 18), (xin, 9), (ding, 3)]
  | hai => [(ren, 20), (jia, 10)]

/-- `ELEMENT_KO`: Korean names of the elements. -/
def ELEMENT_KO : Element → String
  | wood => "목"
  | fire => "화"
  | earth => "토"
  | metal => "금"
  | water => "수"

/-- The hanzi character of an element (used inside justification strings). -/
def elementHanzi : Element → String
  | wood => "木"
  | fire => "火"
  | earth => "土"
  | metal => "金"
  | water => "水"

/-- The season-temperature tags appearing as values of `MONTH_TEMPERATURE`. -/
inductive Temperature
  | veryHot
  | hot
  | slightlyWarm
  | warm
  | normal
  | slightlyCold
  | cold
  | veryCold
deriving DecidableEq, Repr, Fintype

/-- Korean spelling of each temperature tag, as in the source strings. -/
def tempKo : Temperature → String
  | Temperature.veryHot => "매우 뜨거움"
  | Temperature.hot => "뜨거움"
  | Temperature.slightlyWarm => "약간 따뜻함"
  | Temperature.warm => "따뜻함"
  | Temperature.normal => "보통"
  | Temperature.slightlyCold => "약간 차가움"
  | Temperature.cold => "차가움"
  | Temperature.veryCold => "매우 차가움"

/-- `MONTH_TEMPERATURE`: month-branch → temperature tag. -/
def MONTH_TEMPERATURE : Branch → Temperature
  | yin => Temperature.slightlyCold
  | mao => Temperature.normal
  | chen => Temperature.normal
  | si => Temperature.warm
  | wuB => Temperature.veryHot
  | wei => Temperature.hot
  | shen => Temperature.slightlyWarm
  | you => Temperature.normal
  | xu => Temperature.slightlyCold
  | hai => Temperature.cold
  | zi => Temperature.veryCold
  | chou => Temperature.veryCold

/-- A pillar: one (stem, branch) pair.  Presentation-only dataclass fields
(Korean spellings, nayin, cached elements) are omitted. -/
structure Pillar where
  stem : Stem
  branch : Branch
deriving DecidableEq, Repr

/-- `FourPillars`: the Chart — year, month, day and time pillars. -/
structure FourPillars where
  year : Pillar
  month : Pillar
  day : Pillar
  time : Pillar
deriving DecidableEq, Repr

/-- Python `round(x, 1)`: round to one decimal place.
(`round` on ℚ rounds half up; Python uses floats with half-to-even —
the two agree away from exact .05 ties, and every bound proved below
holds for either convention.) -/
def round1 (x : ℚ) : ℚ := ((round (10 * x) : ℤ) : ℚ) / 10

/-- Score a stem position: its full weight goes to the stem's element
(`element_scores[element] += weight` in `analyze_elements`). -/
def stemScore (w : ℚ) (s : Stem) (e : Element) : ℚ :=
  if STEM_ELEMENT s = e then w else 0

/-- Total hidden-stem days of a branch (`total_days` in `analyze_elements`). -/
def totalDays (b : Branch) : ℕ := ((HIDDEN_STEMS b).map Prod.snd).sum

/-- Score a branch position: its weight is split across the hidden stems
proportionally to their days (`weight * days / total_days`). -/
def branchScore (w : ℚ) (b : Branch) (e : Element) : ℚ :=
  if 0 < totalDays b then
    ((HIDDEN_STEMS b).map (fun p =>
      if STEM_ELEMENT p.1 = e then w * (p.2 : ℚ) / (totalDays b : ℚ) else 0)).sum
  else 0

/-- `analyze_elements` raw score of one element: the eight positions with
`POSITION_WEIGHTS` (year 10/10, month 10/35, day 0/18, time 7/10; the
day-stem weight 0 is skipped by the `if weight == 0` guard) plus the
fixed base bonus 5 on the day stem's element. -/
def elementScores (p : FourPillars) (e : Element) : ℚ :=
  stemScore 10 p.year.stem e + branchScore 10 p.year.branch e +
  stemScore 10 p.month.stem e + branchScore 35 p.month.branch e +
  branchScore 18 p.day.branch e +
  stemScore 7 p.time.stem e + branchScore 10 p.time.branch e +
  stemScore 5 p.day.stem e

/-- `total_score = sum(element_scores.values())`. -/
def totalScore (p : FourPillars) : ℚ :=
  (ELEMENTS.map (elementScores p)).sum

/-- `element_ratios[e] = round(score / total * 100, 1)` (0 when total ≤ 0). -/
def ratioPct (p : FourPillars) (e : Element) : ℚ :=
  if 0 < totalScore p then round1 (elementScores p e / totalScore p * 100) else 0

/-- The rounded per-element score reported in `element_stats` (`"score"`). -/
def scoreR (p : FourPillars) (e : Element) : ℚ :=
  round1 (elementScores p e)

/-- The day element: element of the day pillar's stem. -/
def dayElement (p : FourPillars) : Element := STEM_ELEMENT p.day.stem

/-- Python `min(l, key=f)` over a nonempty list given as head and tail:
keeps the current best unless a strictly smaller key appears. -/
def pyArgmin (f : Element → ℚ) (x : Element) (l : List Element) : Element :=
  l.foldl (fun best y => if f y < f best then y else best) x

/-- Python `max(l, key=f)` over a nonempty list given as head and tail:
keeps the current best unless a strictly larger key appears. -/
def pyArgmax (f : Element → ℚ) (x : Element) (l : List Element) : Element :=
  l.foldl (fun best y => if f best < f y then y else best) x

/-- `missing_elements = [e for e in ELEMENTS if ratio < 5]`. -/
def missingElements (p : FourPillars) : List Element :=
  ELEMENTS.filter (fun e => ratioPct p e < 5)

/-- `_is_supporting_element`: same element (비겁) or an element that
generates the day element (인성). -/
def isSupportingElement (dayEl other : Element) : Prop :=
  dayEl = other ∨ ELEMENT_GENERATES other = dayEl

instance (d o : Element) : Decidable (isSupportingElement d o) := by
  unfold isSupportingElement
  infer_instance

/-- 득령: the month branch's dominant hidden stem (head of the table entry)
supports the day element. -/
def isDeukRyeong (p : FourPillars) : Prop :=
  match HIDDEN_STEMS p.month.branch with
  | [] => False
  | h :: _ => isSupportingElement (dayElement p) (STEM_ELEMENT h.1)

instance (p : FourPillars) : Decidable (isDeukRyeong p) := by
  unfold isDeukRyeong
  exact match HIDDEN_STEMS p.month.branch with
  | [] => inferInstanceAs (Decidable False)
  | h :: _ => inferInstanceAs (Decidable (isSupportingElement _ _))

/-- 득지: some hidden stem of the day branch has exactly the day element. -/
def isDeukJi (p : FourPillars) : Prop :=
  ∃ q ∈ HIDDEN_STEMS p.day.branch, STEM_ELEMENT q.1 = dayElement p

instance (p : FourPillars) : Decidable (isDeukJi p) := by
  unfold isDeukJi
  infer_instance

/-- The elements of the 7 characters other than the day stem, in the
iteration order of `analyze_strength` (the three non-day stems by their
stem element, then the four branches by their own branch element —
hidden composition is deliberately not used here). -/
def sevenCharElements (p : FourPillars) : List Element :=
  [STEM_ELEMENT p.year.stem, STEM_ELEMENT p.month.stem, STEM_ELEMENT p.time.stem,
   BRANCH_ELEMENT p.year.branch, BRANCH_ELEMENT p.month.branch,
   BRANCH_ELEMENT p.day.branch, BRANCH_ELEMENT p.time.branch]

/-- 득세: strictly more than half of the 7 surrounding characters support
the day element (`support_count > total_count / 2` with `total_count = 7`). -/
def isDeukSe (p : FourPillars) : Prop :=
  (((sevenCharElements p).countP
      (fun e => decide (isSupportingElement (dayElement p) e)) : ℚ)) >
    (((sevenCharElements p).length : ℚ)) / 2

instance (p : FourPillars) : Decidable (isDeukSe p) := by
  unfold isDeukSe
  infer_instance

/-- `deuk_count = sum([is_deuk_ryeong, is_deuk_ji, is_deuk_se])`. -/
def deukCount (p : FourPillars) : ℕ :=
  (if isDeukRyeong p then 1 else 0) + (if isDeukJi p then 1 else 0) +
    (if isDeukSe p then 1 else 0)

/-- `supporting_score`: rounded score of the day element plus the rounded
scores of every element generating it (the code reads `stats[...]["score"]`,
which are the rounded per-element scores). -/
def supportingScore (p : FourPillars) : ℚ :=
  scoreR p (dayElement p) +
    ((ELEMENTS.filter (fun e => ELEMENT_GENERATES e = dayElement p)).map
      (scoreR p)).sum

/-- The reported `total_score` (rounded to one decimal). -/
def totalScoreR (p : FourPillars) : ℚ := round1 (totalScore p)

/-- `support_ratio = round(supporting_score / total_score * 100, 1)`
(0 when the total is not positive). -/
def supportPct (p : FourPillars) : ℚ :=
  if 0 < totalScoreR p then round1 (supportingScore p / totalScoreR p * 100)
  else 0

/-- The five strength levels. -/
inductive Level
  | veryWeak
  | weak
  | balanced
  | strong
  | veryStrong
deriving DecidableEq, Repr, Fintype

/-- The base classification of `analyze_strength` (before the extreme
override): strong / weak / balanced bands with indicator assistance. -/
def strengthLevelCore (r : ℚ) (d : ℕ) : Level :=
  if r ≥ 55 then Level.strong
  else if r ≥ 50 ∧ d ≥ 2 then Level.strong
  else if r ≤ 40 then Level.weak
  else if r ≤ 45 ∧ d ≤ 1 then Level.weak
  else Level.balanced

/-- The final `strength_level`: the extreme bands (≥70 / ≤25) replace the
base classification (`if support_ratio >= 70: ... elif <= 25: ...`). -/
def strengthLevelOf (r : ℚ) (d : ℕ) : Level :=
  if r ≥ 70 then Level.veryStrong
  else if r ≤ 25 then Level.veryWeak
  else strengthLevelCore r d

/-- The strength verdict of a Chart. -/
def strengthLevel (p : FourPillars) : Level :=
  strengthLevelOf (supportPct p) (deukCount p)

/-- The spec's seven-rule reference decision list, in its stated
precedence order (§4.3 rules 1–7). -/
def specSevenRule (r : ℚ) (d : ℕ) : Level :=
  if r ≥ 70 then Level.veryStrong
  else if r ≥ 55 then Level.strong
  else if r ≥ 50 ∧ d ≥ 2 then Level.strong
  else if r ≤ 25 then Level.veryWeak
  else if r ≤ 40 then Level.weak
  else if r ≤ 45 ∧ d ≤ 1 then Level.weak
  else Level.balanced

/-- Result of `_check_tonggwan`: the two conflicting elements and their
mediator. -/
structure Tonggwan where
  element1 : Element
  element2 : Element
  mediator : Element
deriving DecidableEq, Repr

/-- `_check_johu`: water for (very) hot months, fire for (very) cold
months, nothing (the empty string) otherwise. -/
def checkJohu (t : Temperature) : Option Element :=
  if t = Temperature.veryHot ∨ t = Temperature.hot then some water
  else if t = Temperature.veryCold ∨ t = Temperature.cold then some fire
  else none

/-- `_check_tonggwan`: take the elements whose (rounded) ratio is ≥ 30, in
`ELEMENTS` order; if there are at least two, examine only the first two;
if one controls the other, the mediator is what the controller generates. -/
def checkTonggwan (p : FourPillars) : Option Tonggwan :=
  match ELEMENTS.filter (fun e => ratioPct p e ≥ 30) with
  | e1 :: e2 :: _ =>
      if ELEMENT_CONTROLS e1 = e2 then
        some ⟨e1, e2, ELEMENT_GENERATES e1⟩
      else if ELEMENT_CONTROLS e2 = e1 then
        some ⟨e1, e2, ELEMENT_GENERATES e2⟩
      else none
  | _ => none

/-- Output of `_select_by_strength`. -/
structure BaseSelection where
  yong : Element
  hee : Element
  gi : Element
  reason : String
deriving DecidableEq, Repr

/-- The element generating the day element (인성): first element of
`ELEMENTS` whose generation target is the day element. -/
def insungElement (d : Element) : Element :=
  ((ELEMENTS.find? (fun e => ELEMENT_GENERATES e = d)).getD d)

/-- The element controlling the day element (관성): first element of
`ELEMENTS` whose control target is the day element. -/
def gwansungElement (d : Element) : Element :=
  ((ELEMENTS.find? (fun e => ELEMENT_CONTROLS e = d)).getD d)

/-- Python's stable `list.sort(key=score)` on candidate lists: insertion
sort by the score component (stable for equal keys). -/
def sortCandidates (l : List (Element × ℚ)) : List (Element × ℚ) :=
  l.insertionSort (fun a b => a.2 ≤ b.2)

/-- First component of the first two candidates after sorting.  The
candidate lists of `_select_by_strength` always have 2 or 3 entries, so
the default is never used. -/
def firstTwo (l : List (Element × ℚ)) : Element × Element :=
  match l with
  | a :: b :: _ => (a.1, b.1)
  | [a] => (a.1, a.1)
  | [] => (wood, wood)

/-- `_select_by_strength`: the surplus/deficit (억부) baseline strategy. -/
def selectByStrength (d : Element) (lvl : Level) (p : FourPillars) :
    BaseSelection :=
  let siksang := ELEMENT_GENERATES d
  let jaesung := ELEMENT_CONTROLS d
  let gwansung := gwansungElement d
  let insung := insungElement d
  if lvl = Level.strong ∨ lvl = Level.veryStrong then
    let cands := sortCandidates
      [(siksang, scoreR p siksang), (jaesung, scoreR p jaesung),
       (gwansung, scoreR p gwansung)]
    let yh := firstTwo cands
    { yong := yh.1, hee := yh.2, gi := insung,
      reason := "억부용신: " ++ ("신강 사주이므로 기운을 설기하는 " ++
        (ELEMENT_KO yh.1 ++ ("(" ++ (elementHanzi yh.1 ++ ")이(가) 필요합니다.")))) }
  else if lvl = Level.weak ∨ lvl = Level.veryWeak then
    let cands := sortCandidates
      [(insung, scoreR p insung), (d, scoreR p d)]
    let yh := firstTwo cands
    { yong := yh.1, hee := yh.2, gi := gwansung,
      reason := "억부용신: " ++ ("신약 사주이므로 기운을 보충하는 " ++
        (ELEMENT_KO yh.1 ++ ("(" ++ (elementHanzi yh.1 ++ ")이(가) 필요합니다.")))) }
  else
    let weakest := pyArgmin (scoreR p) wood [fire, earth, metal, water]
    let strongest := pyArgmax
      (fun e => if e = d then 0 else scoreR p e) wood [fire, earth, metal, water]
    { yong := weakest, hee := ELEMENT_GENERATES weakest, gi := strongest,
      reason := "중화 사주이지만 " ++
        (ELEMENT_KO weakest ++ ("(" ++ (elementHanzi weakest ++
          ")이(가) 부족하여 이를 보충합니다."))) }

/-- `_get_method_name`: 조후 if the johu check returned anything (truthy
string), else 통관 if mediation triggered, else 억부. -/
def getMethodName (johu : Option Element) (tg : Option Tonggwan) : String :=
  if johu.isSome then "조후용신(調候用神)"
  else if tg.isSome then "통관용신(通關用神)"
  else "억부용신(抑扶用神)"

/-- The Selection Result (recommendation maps are presentation-only and
omitted).  The `if not gi_shin` fix-up of `select_yong_shin` is dead code —
`_select_by_strength` always returns a non-empty 기신 — so `giShin` is
exactly the baseline's value. -/
structure Selection where
  yongShin : Element
  heeShin : Element
  giShin : Element
  selectionMethod : String
  selectionReason : String
  temperature : Temperature
deriving DecidableEq, Repr

/-- `select_yong_shin`: baseline 억부 selection, then the 조후 override
(only at extreme temperatures), then the 통관 override (wins over all). -/
def selectYongShin (p : FourPillars) : Selection :=
  let dayEl := dayElement p
  let lvl := strengthLevel p
  let temp := MONTH_TEMPERATURE p.month.branch
  let johu := checkJohu temp
  let tg := checkTonggwan p
  let base := selectByStrength dayEl lvl p
  let afterJohu :=
    match johu with
    | some e =>
        if temp = Temperature.veryHot ∨ temp = Temperature.veryCold then
          (e, "조후용신: " ++ (tempKo temp ++ " 사주로 온도 조절이 최우선입니다."))
        else (base.yong, base.reason)
    | none => (base.yong, base.reason)
  let final :=
    match tg with
    | some t =>
        (t.mediator, "통관용신: " ++
          (ELEMENT_KO t.element1 ++ ("과(와) " ++
            (ELEMENT_KO t.element2 ++ ("의 대립을 " ++
              (ELEMENT_KO t.mediator ++ "이(가) 중재합니다."))))))
    | none => afterJohu
  { yongShin := final.1, heeShin := base.hee, giShin := base.gi,
    selectionMethod := getMethodName johu tg,
    selectionReason := final.2, temperature := temp }

/-- The interaction kinds produced by `analyze_interactions`
(천간합, 방합, 삼합, 반삼합, 육합, 충, 자형, 형, 삼형, 파). -/
inductive IKind
  | cheonganhap
  | banghap
  | samhap
  | bansamhap
  | yukhap
  | chung
  | jahyeong
  | hyeong
  | samhyeong
  | pa
deriving DecidableEq, Repr

/-- A detected Interaction.  Characters are recorded as strings, as in the
Python source; presentation-only fields (positions, Korean spellings,
impact, description) are omitted. -/
structure Interaction where
  kind : IKind
  priority : ℚ
  members : List String
  result : Option Element
deriving DecidableEq, Repr

/-- The hanzi string of a stem. -/
def stemHanzi : Stem → String
  | jia => "甲"
  | yi => "乙"
  | bing => "丙"
  | ding => "丁"
  | wu => "戊"
  | ji => "己"
  | geng => "庚"
  | xin => "辛"
  | ren => "壬"
  | gui => "癸"

/-- The hanzi string of a branch. -/
def branchHanzi : Branch → String
  | zi => "子"
  | chou => "丑"
  | yin => "寅"
  | mao => "卯"
  | chen => "辰"
  | si => "巳"
  | wuB => "午"
  | wei => "未"
  | shen => "申"
  | you => "酉"
  | xu => "戌"
  | hai => "亥"

/-- All index pairs i < j of a list, in the order of the nested Python
loops (`for i ... for j in range(i+1, ...)`). -/
def pairCombos {α : Type} : List α → List (α × α)
  | [] => []
  | x :: xs => (xs.map fun y => (x, y)) ++ pairCombos xs

/-- `STEM_COMBINATIONS` (천간합), keys as unordered pairs. -/
def STEM_COMBINATIONS : List ((Stem × Stem) × Element) :=
  [((jia, ji), earth), ((yi, geng), metal), ((bing, xin), water),
   ((ding, ren), wood), ((wu, gui), fire)]

/-- `BRANCH_SIX_COMBINATIONS` (육합), keys as unordered pairs. -/
def BRANCH_SIX_COMBINATIONS : List ((Branch × Branch) × Element) :=
  [((zi, chou), earth), ((yin, hai), wood), ((mao, xu), fire),
   ((chen, you), metal), ((si, shen), water), ((wuB, wei), earth)]

/-- `BRANCH_THREE_HARMONY` (삼합) triples. -/
def BRANCH_THREE_HARMONY : List (List Branch × Element) :=
  [([shen, zi, chen], water), ([hai, mao, wei], wood),
   ([yin, wuB, xu], fire), ([si, you, chou], metal)]

/-- `BRANCH_DIRECTIONAL` (방합) triples. -/
def BRANCH_DIRECTIONAL : List (List Branch × Element) :=
  [([yin, mao, chen], wood), ([si, wuB, wei], fire),
   ([shen, you, xu], metal), ([hai, zi, chou], water)]

/-- `BRANCH_CLASHES` (충), unordered pairs. -/
def BRANCH_CLASHES : List (Branch × Branch) :=
  [(zi, wuB), (chou, wei), (yin, shen), (mao, you), (chen, xu), (si, hai)]

/-- `BRANCH_PUNISHMENTS` (형).  The member lists are the Python
`frozenset` keys: `frozenset(["午","午"])` etc. deduplicate to
singletons, so the four self-punishment entries have a single member. -/
def BRANCH_PUNISHMENTS : List (List Branch × String) :=
  [([yin, si, shen], "무례지형"), ([chou, xu, wei], "은혜지형"),
   ([zi, mao], "무례지형"),
   ([wuB], "자형"), ([chen], "자형"), ([you], "자형"), ([hai], "자형")]

/-- `BRANCH_BREAKS` (파), unordered pairs. -/
def BRANCH_BREAKS : List (Branch × Branch) :=
  [(zi, you), (chou, chen), (yin, hai), (mao, wuB), (si, shen), (wei, xu)]

/-- `frozenset([a, b]) in table` for a pair table (a, b distinct or not:
a singleton never matches a 2-element key). -/
def pairLookup {α : Type} [DecidableEq α] (t : List ((α × α) × Element))
    (a b : α) : Option Element :=
  (t.find? (fun kv => (kv.1.1 = a ∧ kv.1.2 = b) ∨ (kv.1.1 = b ∧ kv.1.2 = a))).map
    (·.2)

/-- `frozenset([a, b]) in set-of-pairs`. -/
def pairMem {α : Type} [DecidableEq α] (t : List (α × α)) (a b : α) : Bool :=
  t.any (fun kv => (kv.1 = a ∧ kv.2 = b) ∨ (kv.1 = b ∧ kv.2 = a))

/-- The four stems of a chart in position order (연간, 월간, 일간, 시간). -/
def stemList (p : FourPillars) : List Stem :=
  [p.year.stem, p.month.stem, p.day.stem, p.time.stem]

/-- The four branches of a chart in position order (연지, 월지, 일지, 시지). -/
def branchList (p : FourPillars) : List Branch :=
  [p.year.branch, p.month.branch, p.day.branch, p.time.branch]

/-- Section 1 of `analyze_interactions`: 천간합 over all stem pairs. -/
def stemComboSection (p : FourPillars) : List Interaction :=
  (pairCombos (stemList p)).filterMap fun q =>
    (pairLookup STEM_COMBINATIONS q.1 q.2).map fun r =>
      { kind := IKind.cheonganhap, priority := 3,
        members := [stemHanzi q.1, stemHanzi q.2], result := some r }

/-- Section 2: 방합 — a directional triple fires only when all three
branches are present (`combo.issubset(branch_set)`). -/
def directionalSection (p : FourPillars) : List Interaction :=
  BRANCH_DIRECTIONAL.filterMap fun ce =>
    if ce.1.all (fun b => b ∈ branchList p) then
      some { kind := IKind.banghap, priority := 1,
             members := ce.1.map branchHanzi, result := some ce.2 }
    else none

/-- Section 3: 삼합 — 2-of-3 is a partial match (반삼합, priority 2.5),
3-of-3 a full one (삼합, priority 2); one entry per table triple. -/
def harmonySection (p : FourPillars) : List Interaction :=
  BRANCH_THREE_HARMONY.filterMap fun ce =>
    let matching := ce.1.filter (fun b => b ∈ branchList p)
    if matching.length ≥ 2 then
      some { kind := if matching.length = 3 then IKind.samhap else IKind.bansamhap,
             priority := if matching.length = 3 then 2 else 5 / 2,
             members := matching.map branchHanzi, result := some ce.2 }
    else none

/-- Section 4: 육합 over all branch position pairs. -/
def sixComboSection (p : FourPillars) : List Interaction :=
  (pairCombos (branchList p)).filterMap fun q =>
    (pairLookup BRANCH_SIX_COMBINATIONS q.1 q.2).map fun r =>
      { kind := IKind.yukhap, priority := 3,
        members := [branchHanzi q.1, branchHanzi q.2], result := some r }

/-- Section 5: 충 over all branch position pairs. -/
def clashSection (p : FourPillars) : List Interaction :=
  (pairCombos (branchList p)).filterMap fun q =>
    if pairMem BRANCH_CLASHES q.1 q.2 then
      some { kind := IKind.chung, priority := 4,
             members := [branchHanzi q.1, branchHanzi q.2], result := none }
    else none

/-- Section 6: 형.  Mirrors the Python dispatch on `members = list(combo)`:
a 2-member key with equal members would be self-punishment (자형) — but no
frozenset has two equal members, so that branch is dead and the singleton
keys produced by the deduplicated 자형 entries match no branch at all;
distinct 2-member keys need both branches present; 3-member keys need at
least 2 present (삼형). -/
def punishEntries (bs : List Branch) (ce : List Branch × String) :
    List Interaction :=
  match ce.1 with
  | [a, b] =>
      if a = b then
        if bs.count a ≥ 2 then
          [{ kind := IKind.jahyeong, priority := 5,
             members := [branchHanzi a], result := none }]
        else []
      else
        if a ∈ bs ∧ b ∈ bs then
          [{ kind := IKind.hyeong, priority := 5,
             members := [branchHanzi a, branchHanzi b], result := none }]
        else []
  | [a, b, c] =>
      let matching := [a, b, c].filter (fun x => x ∈ bs)
      if matching.length ≥ 2 then
        [{ kind := IKind.samhyeong, priority := 5,
           members := matching.map branchHanzi, result := none }]
      else []
  | _ => []

/-- Section 6 assembled over the (deduplicated) punishment table. -/
def punishmentSection (p : FourPillars) : List Interaction :=
  BRANCH_PUNISHMENTS.flatMap (punishEntries (branchList p))

/-- Section 7: 파 over all branch position pairs. -/
def breakSection (p : FourPillars) : List Interaction :=
  (pairCombos (branchList p)).filterMap fun q =>
    if pairMem BRANCH_BREAKS q.1 q.2 then
      some { kind := IKind.pa, priority := 6,
             members := [branchHanzi q.1, branchHanzi q.2], result := none }
    else none

/-- `analyze_interactions`: the seven sections in discovery order, then the
stable sort ascending by priority (`interactions.sort(key=priority)`). -/
def analyzeInteractions (p : FourPillars) : List Interaction :=
  (stemComboSection p ++ directionalSection p ++ harmonySection p ++
    sixComboSection p ++ clashSection p ++ punishmentSection p ++
    breakSection p).insertionSort (fun a b => a.priority ≤ b.priority)

/-- `_score_fortune`'s per-character delta: the bonus `elif` chain against
the 용신 plus the penalty `elif` chain against the 기신. -/
def charDelta (e yong gi : Element) : ℤ :=
  (if e = yong then 25
   else if ELEMENT_GENERATES e = yong then 15
   else if ELEMENT_GENERATES yong = e then 5
   else 0) +
  (if e = gi then -20
   else if ELEMENT_GENERATES e = gi then -10
   else 0)

/-- `_score_fortune`: base 50, plus the deltas of the window's stem element
and branch element, clamped to [0, 100]. -/
def scoreFortune (s : Stem) (b : Branch) (yong gi : Element) : ℤ :=
  max 0 (min 100
    (50 + charDelta (STEM_ELEMENT s) yong gi + charDelta (BRANCH_ELEMENT b) yong gi))

/-- The pre-clamp fortune score. -/
def preClampScore (s : Stem) (b : Branch) (yong gi : Element) : ℤ :=
  50 + charDelta (STEM_ELEMENT s) yong gi + charDelta (BRANCH_ELEMENT b) yong gi

/-- `_score_to_rating`. -/
def scoreToRating (n : ℤ) : String :=
  if n ≥ 85 then "대길(大吉)"
  else if n ≥ 70 then "길(吉)"
  else if n ≥ 55 then "보통(普通)"
  else if n ≥ 40 then "흉(凶)"
  else "대흉(大凶)"

/-- The three selection strategies of §4.6. -/
inductive Strategy
  | johu
  | tonggwan
  | eokbu
deriving DecidableEq, Repr

/-- The strategy that actually fixed the primary-need element: mediation
wins whenever it triggers, temperature regulation only at the two extreme
tags, and the surplus/deficit baseline otherwise (this mirrors the
assignment order of `select_yong_shin`). -/
def actualStrategy (p : FourPillars) : Strategy :=
  if (checkTonggwan p).isSome then Strategy.tonggwan
  else if (checkJohu (MONTH_TEMPERATURE p.month.branch)).isSome ∧
      (MONTH_TEMPERATURE p.month.branch = Temperature.veryHot ∨
        MONTH_TEMPERATURE p.month.branch = Temperature.veryCold) then
    Strategy.johu
  else Strategy.eokbu

/-- The reported name of each strategy (the three strings `_get_method_name`
can return). -/
def methodNameOf : Strategy → String
  | Strategy.johu => "조후용신(調候用神)"
  | Strategy.tonggwan => "통관용신(通關用神)"
  | Strategy.eokbu => "억부용신(抑扶用神)"

/-- Modelled from the spec (§4.7): the per-character score adjustment as a
flat list of independent bonuses and penalties. -/
def specDelta (e yong gi : Element) : ℤ :=
  (if e = yong then 25 else 0) + (if ELEMENT_GENERATES e = yong then 15 else 0) +
    (if ELEMENT_GENERATES yong = e then 5 else 0) -
    (if e = gi then 20 else 0) - (if ELEMENT_GENERATES e = gi then 10 else 0)

/-- The five rating bands of §4.7. -/
inductive Band
  | exceptional
  | favorable
  | neutral
  | unfavorable
  | adverse
deriving DecidableEq, Repr

/-- Modelled from the spec (§4.7): ≥85 exceptional, ≥70 favorable,
≥55 neutral, ≥40 unfavorable, else adverse. -/
def specBand (n : ℤ) : Band :=
  if n ≥ 85 then Band.exceptional
  else if n ≥ 70 then Band.favorable
  else if n ≥ 55 then Band.neutral
  else if n ≥ 40 then Band.unfavorable
  else Band.adverse

/-- The rating string attached to each band by the implementation. -/
def bandName : Band → String
  | Band.exceptional => "대길(大吉)"
  | Band.favorable => "길(吉)"
  | Band.neutral => "보통(普通)"
  | Band.unfavorable => "흉(凶)"
  | Band.adverse => "대흉(大凶)"

/-- Convenience constructor for charts. -/
def mkChart (a b c d : Stem) (w x y z : Branch) : FourPillars :=
  ⟨⟨a, w⟩, ⟨b, x⟩, ⟨c, y⟩, ⟨d, z⟩⟩

/-- 丙子 丙卯 丙子 丁子: three elements reach 30% (木 33.3, 火 30.5, 水 36.2);
the mediation check looks only at the first two (木, 火), which are not in
a control relation, so it never sees the conflicting pair (水, 火). -/
def chartC1ce : FourPillars := mkChart bing bing bing ding zi mao zi zi

/-- 甲卯 甲戌 戊卯 戊丑: exactly 木 (45.7%) and 土 (37.1%) reach 30%, and
木 controls 土. -/
def chartC1w : FourPillars := mkChart jia jia wu wu mao xu mao chou

/-- 甲子 戊戌 甲寅 壬子: a balanced chart (support ratio 49.1) with a
normal-temperature month and no mediation conflict. -/
def chartC2ce : FourPillars := mkChart jia wu jia ren zi xu yin zi

/-- 甲子 甲未 甲午 甲申: month branch 未 is tagged 뜨거움 (hot), so the
johu check returns 水, yet the temperature is not extreme and the element
is chosen by the surplus/deficit baseline. -/
def chartC4ce : FourPillars := mkChart jia jia jia jia zi wei wuB shen

/-- 甲午 甲午 甲午 甲午: the self-punishing branch 午 appears four times. -/
def chartC5 : FourPillars := mkChart jia jia jia jia wuB wuB wuB wuB

/-- 甲巳 甲午 甲未 甲子: the full directional triple 巳午未 is present and
午未 is also a six-fusion pair. -/
def chartC6 : FourPillars := mkChart jia jia jia jia si wuB wei zi

/-- 甲寅 甲寅 甲寅 甲寅: the worked scenario of §8. -/
def chartC9 : FourPillars := mkChart jia jia jia jia yin yin yin yin

/-- C9: for the Chart with all four stems 甲 and all four branches 寅, the
distribution analyzer reports Wood 70.9 (67.6%), Fire 17.0 (16.2%),
Earth 17.0 (16.2%), Metal 0 (0%), Water 0 (0%), and missing elements
exactly {Metal, Water}. -/
theorem c9_worked_distribution :
    scoreR chartC9 wood = 70.9 ∧ ratioPct chartC9 wood = 67.6 ∧
    scoreR chartC9 fire = 17.0 ∧ ratioPct chartC9 fire = 16.2 ∧
    scoreR chartC9 earth = 17.0 ∧ ratioPct chartC9 earth = 16.2 ∧
    scoreR chartC9 metal = 0 ∧ ratioPct chartC9 metal = 0 ∧
    scoreR chartC9 water = 0 ∧ ratioPct chartC9 water = 0 ∧
    missingElements chartC9 = [metal, water] := by
  with_unfolding_all decide

/-- C5: the Chart 甲午/甲午/甲午/甲午 repeats the self-punishing branch 午
four times, yet `analyze_interactions` returns no interaction at all — in
particular no 자형 (self-punishment) entry.  The `frozenset(["午","午"])`
table keys deduplicate to singletons, so the self-punishment branch of the
detector is unreachable. -/
theorem c5_self_punishment_missing :
    (branchList chartC5).count Branch.wuB = 4 ∧
    analyzeInteractions chartC5 = [] := by
  decide

/-- C6 counterexample: on the Chart 甲巳/甲午/甲未/甲子 the full
directional triple 巳午未 is reported, and the 2-branch six-fusion 午未 —
both of whose branches lie inside that confirmed triple — is additionally
reported as a separate entry. -/
theorem c6_counterexample :
    Interaction.mk IKind.banghap 1 ["巳", "午", "未"] (some fire) ∈
      analyzeInteractions chartC6 ∧
    Interaction.mk IKind.yukhap 3 ["午", "未"] (some earth) ∈
      analyzeInteractions chartC6 ∧
    ("午" ∈ ["巳", "午", "未"] ∧ "未" ∈ ["巳", "午", "未"]) := by
  decide

/-- C1 counterexample: on the Chart 丙子/丙卯/丙子/丁子, 水 and 火 both
hold ≥ 30% and 水 controls 火, yet the selected primary-need element is
not 木 (= what 水 generates): the mediation check inspects only the first
two ≥30% elements in 木火土金水 order, here 木 and 火, which are not in a
control relation. -/
theorem c1_counterexample :
    ratioPct chartC1ce water ≥ 30 ∧ ratioPct chartC1ce fire ≥ 30 ∧
    ELEMENT_CONTROLS water = fire ∧
    (selectYongShin chartC1ce).yongShin ≠ ELEMENT_GENERATES water := by
  with_unfolding_all decide

/-- C2 counterexample: the Chart 甲子/戊戌/甲寅/壬子 is balanced, its
primary-need element is the weakest-scored element 火, and the reported
ally is 土 (the element 火 generates), not 木 (the element that generates
火) as the claim states. -/
theorem c2_counterexample :
    strengthLevel chartC2ce = Level.balanced ∧
    ELEMENT_GENERATES wood = (selectYongShin chartC2ce).yongShin ∧
    (selectYongShin chartC2ce).heeShin ≠ wood := by
  with_unfolding_all decide

/-- C4 counterexample: on the Chart 甲子/甲未/甲午/甲申 the element is
chosen by the surplus/deficit baseline (no mediation, temperature 뜨거움
is not extreme), yet the reported selection method is 조후용신 because the
johu check returned a non-empty element. -/
theorem c4_counterexample :
    actualStrategy chartC4ce = Strategy.eokbu ∧
    (selectYongShin chartC4ce).selectionMethod ≠
      methodNameOf (actualStrategy chartC4ce) := by
  with_unfolding_all decide

lemma strengthLevelOf_eq_specSevenRule (r : ℚ) (d : ℕ) :
    strengthLevelOf r d = specSevenRule r d := by
  unfold strengthLevelOf strengthLevelCore specSevenRule
  split_ifs <;> first
    | rfl
    | (exfalso; (try casesm* _ ∧ _); linarith)

/-- C3: the strength verdict equals the spec's seven-rule decision list
evaluated in its stated precedence order on the chart's support ratio and
indicator count; in particular extreme ratios dominate the
indicator-assisted bands. -/
theorem c3_strength_seven_rule (p : FourPillars) :
    strengthLevel p = specSevenRule (supportPct p) (deukCount p) :=
  strengthLevelOf_eq_specSevenRule (supportPct p) (deukCount p)

lemma charDelta_eq_specDelta : ∀ e y g : Element,
    charDelta e y g = specDelta e y g := by
  decide

lemma charDelta_bounds : ∀ e y g : Element,
    -20 ≤ charDelta e y g ∧ charDelta e y g ≤ 25 := by
  decide

lemma scoreToRating_eq_bandName (n : ℤ) :
    scoreToRating n = bandName (specBand n) := by
  unfold scoreToRating specBand bandName
  split_ifs <;> rfl

/-- C7: every window's score is 50 plus the spec's flat per-character
bonus/penalty sum for the stem element and the branch element, clamped to
[0, 100], and the reported rating is the band name given by the spec's
thresholds (≥85, ≥70, ≥55, ≥40). -/
theorem c7_timeline_score_and_rating (s : Stem) (b : Branch)
    (yong gi : Element) :
    scoreFortune s b yong gi =
      max 0 (min 100 (50 + specDelta (STEM_ELEMENT s) yong gi +
        specDelta (BRANCH_ELEMENT b) yong gi)) ∧
    scoreToRating (scoreFortune s b yong gi) =
      bandName (specBand (scoreFortune s b yong gi)) := by
  refine ⟨?_, scoreToRating_eq_bandName _⟩
  unfold scoreFortune
  rw [charDelta_eq_specDelta, charDelta_eq_specDelta]

/-- C10: for every valid window and every pair of selected elements, each
character's net contribution lies in [−20, 25], the pre-clamp score is at
least 10, and hence the lower clamp `max 0 _` is never binding: the final
score is exactly `min 100` of the pre-clamp score. -/
theorem c10_preclamp_lower_bound (s : Stem) (b : Branch)
    (yong gi : Element) :
    (-20 ≤ charDelta (STEM_ELEMENT s) yong gi ∧
      charDelta (STEM_ELEMENT s) yong gi ≤ 25) ∧
    (-20 ≤ charDelta (BRANCH_ELEMENT b) yong gi ∧
      charDelta (BRANCH_ELEMENT b) yong gi ≤ 25) ∧
    10 ≤ preClampScore s b yong gi ∧
    scoreFortune s b yong gi = min 100 (preClampScore s b yong gi) := by
  obtain ⟨h1, h2⟩ := charDelta_bounds (STEM_ELEMENT s) yong gi
  obtain ⟨h3, h4⟩ := charDelta_bounds (BRANCH_ELEMENT b) yong gi
  have h10 : 10 ≤ preClampScore s b yong gi := by
    unfold preClampScore
    omega
  refine ⟨⟨h1, h2⟩, ⟨h3, h4⟩, h10, ?_⟩
  unfold scoreFortune preClampScore
  unfold preClampScore at h10
  omega

lemma no_mutual_control : ∀ x y : Element,
    ELEMENT_CONTROLS x = y → ELEMENT_CONTROLS y = x → False := by
  decide

/-- C1 (amended): whenever exactly two elements reach a 30% ratio and one
of them controls the other, the mediation check fires on precisely that
pair and the final primary-need element is the element generated by the
controlling one — overriding both the temperature and the surplus/deficit
strategies, which are assigned earlier in `select_yong_shin`. -/
theorem c1_mediation_exact_two (p : FourPillars) (a b : Element)
    (hf : ELEMENTS.filter (fun e => ratioPct p e ≥ 30) = [a, b])
    (hc : ELEMENT_CONTROLS a = b ∨ ELEMENT_CONTROLS b = a) :
    (selectYongShin p).yongShin =
      ELEMENT_GENERATES (if ELEMENT_CONTROLS a = b then a else b) := by
  have htg : checkTonggwan p =
      some ⟨a, b, ELEMENT_GENERATES (if ELEMENT_CONTROLS a = b then a else b)⟩ := by
    unfold checkTonggwan
    rw [hf]
    rcases hc with h | h
    · simp [h]
    · have hne : ELEMENT_CONTROLS a ≠ b := fun hab => no_mutual_control a b hab h
      simp [hne, h]
  simp [selectYongShin, htg]

/-- C1 witness: on the Chart 甲卯/甲戌/戊卯/戊丑 exactly 木 and 土 reach
30%, 木 controls 土, and the selected primary-need element is 火 (what 木
generates). -/
theorem c1_witness : (selectYongShin chartC1w).yongShin = fire :=
  (c1_mediation_exact_two chartC1w wood earth
      (by with_unfolding_all decide) (Or.inl (by decide))).trans
    (by decide)

/-- C4 (amended): the justification string always names the strategy that
actually determined the primary-need element (통관용신, 조후용신, or for
the 억부 baseline either 억부용신 or the balanced-chart 중화 phrasing);
the reported selection method names 조후용신 exactly when the johu check
returned an element — even when a non-extreme temperature meant it did not
fix the element — and 통관용신 exactly when the johu check was empty and
mediation triggered. -/
theorem c4_method_and_reason (p : FourPillars) :
    ((selectYongShin p).selectionMethod = "조후용신(調候用神)" ↔
      (checkJohu (MONTH_TEMPERATURE p.month.branch)).isSome = true) ∧
    ((selectYongShin p).selectionMethod = "통관용신(通關用神)" ↔
      ((checkJohu (MONTH_TEMPERATURE p.month.branch)).isSome = false ∧
        (checkTonggwan p).isSome = true)) ∧
    (actualStrategy p = Strategy.tonggwan →
      ∃ s, (selectYongShin p).selectionReason = "통관용신: " ++ s) ∧
    (actualStrategy p = Strategy.johu →
      ∃ s, (selectYongShin p).selectionReason = "조후용신: " ++ s) ∧
    (actualStrategy p = Strategy.eokbu →
      (∃ s, (selectYongShin p).selectionReason = "억부용신: " ++ s) ∨
      (∃ s, (selectYongShin p).selectionReason = "중화 사주이지만 " ++ s)) := by
  have hm : (selectYongShin p).selectionMethod =
      getMethodName (checkJohu (MONTH_TEMPERATURE p.month.branch))
        (checkTonggwan p) := rfl
  refine ⟨?_, ?_, ?_, ?_, ?_⟩
  · rw [hm]; unfold getMethodName
    cases hj : checkJohu (MONTH_TEMPERATURE p.month.branch) with
    | some e => simp
    | none =>
        cases htg : checkTonggwan p with
        | some t => simp
        | none => simp
  · rw [hm]; unfold getMethodName
    cases hj : checkJohu (MONTH_TEMPERATURE p.month.branch) with
    | some e => simp
    | none =>
        cases htg : checkTonggwan p with
        | some t => simp
        | none => simp
  · intro h
    unfold actualStrategy at h
    split_ifs at h with h1 h2
    cases htg : checkTonggwan p with
    | none => rw [htg] at h1; simp at h1
    | some t =>
        refine ⟨ELEMENT_KO t.element1 ++ ("과(와) " ++ (ELEMENT_KO t.element2 ++
          ("의 대립을 " ++ (ELEMENT_KO t.mediator ++ "이(가) 중재합니다.")))), ?_⟩
        simp [selectYongShin, htg]
  · intro h
    unfold actualStrategy at h
    split_ifs at h with h1 h2
    have htg : checkTonggwan p = none := by
      cases htg : checkTonggwan p with
      | none => rfl
      | some t => rw [htg] at h1; simp at h1
    cases hj : checkJohu (MONTH_TEMPERATURE p.month.branch) with
    | none => rw [hj] at h2; simp at h2
    | some e =>
        refine ⟨tempKo (MONTH_TEMPERATURE p.month.branch) ++
          " 사주로 온도 조절이 최우선입니다.", ?_⟩
        simp [selectYongShin, htg, hj, h2.2]
  · intro h
    unfold actualStrategy at h
    split_ifs at h with h1 h2
    have htg : checkTonggwan p = none := by
      cases htg : checkTonggwan p with
      | none => rfl
      | some t => exact absurd (by rw [htg]; rfl) h1
    have hbase : (selectYongShin p).selectionReason =
        (selectByStrength (dayElement p) (strengthLevel p) p).reason := by
      cases hj : checkJohu (MONTH_TEMPERATURE p.month.branch) with
      | none => simp [selectYongShin, htg, hj]
      | some e =>
          have hext : ¬(MONTH_TEMPERATURE p.month.branch = Temperature.veryHot ∨
              MONTH_TEMPERATURE p.month.branch = Temperature.veryCold) := by
            intro hx
            exact h2 ⟨by rw [hj]; rfl, hx⟩
          simp [selectYongShin, htg, hj, hext]
    rw [hbase]
    unfold selectByStrength
    split_ifs
    · exact Or.inl ⟨_, rfl⟩
    · exact Or.inl ⟨_, rfl⟩
    · exact Or.inr ⟨_, rfl⟩

/-- C4 witness: on the Chart 甲子/甲未/甲午/甲申 the 억부 baseline
determined the element and the justification string indeed carries the
균형 (중화) baseline phrasing. -/
theorem c4_witness :
    (∃ s, (selectYongShin chartC4ce).selectionReason = "억부용신: " ++ s) ∨
    (∃ s, (selectYongShin chartC4ce).selectionReason = "중화 사주이지만 " ++ s) :=
  (c4_method_and_reason chartC4ce).2.2.2.2 (by with_unfolding_all decide)

lemma mem_stemComboSection_kind {p : FourPillars} {i : Interaction}
    (h : i ∈ stemComboSection p) : i.kind = IKind.cheonganhap := by
  unfold stemComboSection at h
  rcases List.mem_filterMap.mp h with ⟨q, _, hq⟩
  rcases Option.map_eq_some'.mp hq with ⟨r, _, rfl⟩
  rfl

lemma mem_sixComboSection_kind {p : FourPillars} {i : Interaction}
    (h : i ∈ sixComboSection p) : i.kind = IKind.yukhap := by
  unfold sixComboSection at h
  rcases List.mem_filterMap.mp h with ⟨q, _, hq⟩
  rcases Option.map_eq_some'.mp hq with ⟨r, _, rfl⟩
  rfl

lemma mem_clashSection_kind {p : FourPillars} {i : Interaction}
    (h : i ∈ clashSection p) : i.kind = IKind.chung := by
  unfold clashSection at h
  rcases List.mem_filterMap.mp h with ⟨q, _, hq⟩
  split_ifs at hq with hc
  cases hq
  rfl

lemma mem_breakSection_kind {p : FourPillars} {i : Interaction}
    (h : i ∈ breakSection p) : i.kind = IKind.pa := by
  unfold breakSection at h
  rcases List.mem_filterMap.mp h with ⟨q, _, hq⟩
  split_ifs at hq with hc
  cases hq
  rfl

lemma mem_harmonySection_kind {p : FourPillars} {i : Interaction}
    (h : i ∈ harmonySection p) :
    i.kind = IKind.samhap ∨ i.kind = IKind.bansamhap := by
  unfold harmonySection at h
  rcases List.mem_filterMap.mp h with ⟨ce, _, hq⟩
  simp only [ge_iff_le] at hq
  split_ifs at hq with hc h3
  all_goals (cases hq; simp)

lemma mem_punishEntries_kind {bs : List Branch} {ce : List Branch × String}
    {i : Interaction} (h : i ∈ punishEntries bs ce) :
    i.kind = IKind.jahyeong ∨ i.kind = IKind.hyeong ∨
      i.kind = IKind.samhyeong := by
  rcases ce with ⟨l, t⟩
  rcases l with _ | ⟨a, _ | ⟨b, _ | ⟨c, _ | ⟨d, rest⟩⟩⟩⟩
  · simp [punishEntries] at h
  · simp [punishEntries] at h
  · simp only [punishEntries] at h
    split_ifs at h <;> simp_all
  · simp only [punishEntries] at h
    split_ifs at h <;> simp_all
  · simp [punishEntries] at h

lemma mem_punishmentSection_kind {p : FourPillars} {i : Interaction}
    (h : i ∈ punishmentSection p) :
    i.kind = IKind.jahyeong ∨ i.kind = IKind.hyeong ∨
      i.kind = IKind.samhyeong := by
  unfold punishmentSection at h
  rcases List.mem_flatMap.mp h with ⟨ce, _, hmem⟩
  exact mem_punishEntries_kind hmem

lemma mem_directionalSection {p : FourPillars} {i : Interaction}
    (h : i ∈ directionalSection p) :
    i.kind = IKind.banghap ∧ i.members.length = 3 := by
  unfold directionalSection at h
  rcases List.mem_filterMap.mp h with ⟨ce, hce, hq⟩
  split_ifs at hq with hc
  cases hq
  refine ⟨rfl, ?_⟩
  have h3 : ce.1.length = 3 := by
    have hall : ∀ x ∈ BRANCH_DIRECTIONAL, x.1.length = 3 := by decide
    exact hall ce hce
  simpa using h3

lemma directional_countP (p : FourPillars) :
    (directionalSection p).countP (fun i => decide (i.kind = IKind.banghap)) =
      (BRANCH_DIRECTIONAL.filter
        (fun ce => ce.1.all (fun b => b ∈ branchList p))).length := by
  unfold directionalSection
  generalize BRANCH_DIRECTIONAL = t
  induction t with
  | nil => rfl
  | cons x xs ih =>
      rw [List.filterMap_cons, List.filter_cons]
      by_cases hx : x.1.all (fun b => decide (b ∈ branchList p)) = true
      · rw [if_pos hx, if_pos hx]
        dsimp only
        rw [List.countP_cons, ih]
        simp
      · rw [if_neg hx, if_neg hx]
        dsimp only
        exact ih

/-- C6 (amended): each directional-table triple is reported at most once,
only as a full 3-branch match (one entry per fully-present triple, never
as partial or pairwise sub-matches of the directional table); however, a
2-branch fusion of a *different* table (a six-combination such as 午未)
is still reported separately even when its branches lie inside a
confirmed directional triple. -/
theorem c6_directional_once (p : FourPillars) :
    (analyzeInteractions p).countP (fun i => decide (i.kind = IKind.banghap)) =
      (BRANCH_DIRECTIONAL.filter
        (fun ce => ce.1.all (fun b => b ∈ branchList p))).length ∧
    (analyzeInteractions p).countP
      (fun i => decide (i.kind = IKind.banghap ∧ i.members.length ≠ 3)) = 0 := by
  have hperm := List.perm_insertionSort
    (fun a b : Interaction => a.priority ≤ b.priority)
    (stemComboSection p ++ directionalSection p ++ harmonySection p ++
      sixComboSection p ++ clashSection p ++ punishmentSection p ++
      breakSection p)
  constructor
  · rw [show analyzeInteractions p = (stemComboSection p ++ directionalSection p ++
      harmonySection p ++ sixComboSection p ++ clashSection p ++
      punishmentSection p ++ breakSection p).insertionSort
        (fun a b => a.priority ≤ b.priority) from rfl,
      hperm.countP_eq]
    rw [List.countP_append, List.countP_append, List.countP_append,
      List.countP_append, List.countP_append, List.countP_append]
    have h1 : (stemComboSection p).countP
        (fun i => decide (i.kind = IKind.banghap)) = 0 :=
      List.countP_eq_zero.mpr fun a ha => by
        simp [mem_stemComboSection_kind ha]
    have h3 : (harmonySection p).countP
        (fun i => decide (i.kind = IKind.banghap)) = 0 :=
      List.countP_eq_zero.mpr fun a ha => by
        rcases mem_harmonySection_kind ha with hk | hk <;> simp [hk]
    have h4 : (sixComboSection p).countP
        (fun i => decide (i.kind = IKind.banghap)) = 0 :=
      List.countP_eq_zero.mpr fun a ha => by
        simp [mem_sixComboSection_kind ha]
    have h5 : (clashSection p).countP
        (fun i => decide (i.kind = IKind.banghap)) = 0 :=
      List.countP_eq_zero.mpr fun a ha => by
        simp [mem_clashSection_kind ha]
    have h6 : (punishmentSection p).countP
        (fun i => decide (i.kind = IKind.banghap)) = 0 :=
      List.countP_eq_zero.mpr fun a ha => by
        rcases mem_punishmentSection_kind ha with hk | hk | hk <;> simp [hk]
    have h7 : (breakSection p).countP
        (fun i => decide (i.kind = IKind.banghap)) = 0 :=
      List.countP_eq_zero.mpr fun a ha => by
        simp [mem_breakSection_kind ha]
    rw [h1, h3, h4, h5, h6, h7, directional_countP]
    omega
  · rw [show analyzeInteractions p = (stemComboSection p ++ directionalSection p ++
      harmonySection p ++ sixComboSection p ++ clashSection p ++
      punishmentSection p ++ breakSection p).insertionSort
        (fun a b => a.priority ≤ b.priority) from rfl,
      hperm.countP_eq]
    refine List.countP_eq_zero.mpr fun a ha => ?_
    simp only [List.mem_append] at ha
    rcases ha with ((((((h | h) | h) | h) | h) | h) | h)
    · simp [mem_stemComboSection_kind h]
    · obtain ⟨hk, hl⟩ := mem_directionalSection h
      simp [hk, hl]
    · rcases mem_harmonySection_kind h with hk | hk <;> simp [hk]
    · simp [mem_sixComboSection_kind h]
    · simp [mem_clashSection_kind h]
    · rcases mem_punishmentSection_kind h with hk | hk | hk <;> simp [hk]
    · simp [mem_breakSection_kind h]

lemma stem_five (w : ℚ) (s : Stem) :
    stemScore w s wood + stemScore w s fire + stemScore w s earth +
      stemScore w s metal + stemScore w s water = w := by
  cases s <;> simp [stemScore, STEM_ELEMENT]

lemma branch_five (w : ℚ) (b : Branch) :
    branchScore w b wood + branchScore w b fire + branchScore w b earth +
      branchScore w b metal + branchScore w b water = w := by
  cases b <;>
    (simp [branchScore, totalDays, HIDDEN_STEMS, STEM_ELEMENT]; try ring)

lemma totalScore_eq (p : FourPillars) : totalScore p = 105 := by
  have h1 := stem_five 10 p.year.stem
  have h2 := branch_five 10 p.year.branch
  have h3 := stem_five 10 p.month.stem
  have h4 := branch_five 35 p.month.branch
  have h5 := branch_five 18 p.day.branch
  have h6 := stem_five 7 p.time.stem
  have h7 := branch_five 10 p.time.branch
  have h8 := stem_five 5 p.day.stem
  unfold totalScore ELEMENTS elementScores
  simp only [List.map_cons, List.map_nil, List.sum_cons, List.sum_nil]
  linarith

lemma stemScore_nonneg {w : ℚ} (hw : 0 ≤ w) (s : Stem) (e : Element) :
    0 ≤ stemScore w s e := by
  unfold stemScore
  split_ifs <;> simp [hw]

lemma branchScore_nonneg {w : ℚ} (hw : 0 ≤ w) (b : Branch) (e : Element) :
    0 ≤ branchScore w b e := by
  unfold branchScore
  split_ifs with h
  · refine List.sum_nonneg fun x hx => ?_
    rcases List.mem_map.mp hx with ⟨q, _, rfl⟩
    split_ifs
    · positivity
    · exact le_refl 0
  · exact le_refl 0

lemma elementScores_nonneg (p : FourPillars) (e : Element) :
    0 ≤ elementScores p e := by
  unfold elementScores
  exact add_nonneg (add_nonneg (add_nonneg (add_nonneg (add_nonneg
    (add_nonneg (add_nonneg
      (stemScore_nonneg (by norm_num) _ _)
      (branchScore_nonneg (by norm_num) _ _))
      (stemScore_nonneg (by norm_num) _ _))
      (branchScore_nonneg (by norm_num) _ _))
      (branchScore_nonneg (by norm_num) _ _))
      (stemScore_nonneg (by norm_num) _ _))
      (branchScore_nonneg (by norm_num) _ _))
      (stemScore_nonneg (by norm_num) _ _)

/-- C8: for every Chart the five rounded percentages of the Element
Distribution sum to 100 within 0.2: per-element rounding error is at most
0.05, and the sum of the five rounded tenths is itself a multiple of 0.1,
which tightens the naive 0.25 bound to 0.2. -/
theorem c8_ratio_sum_bound (p : FourPillars) :
    |(ELEMENTS.map (ratioPct p)).sum - 100| ≤ 1 / 5 := by
  have htot := totalScore_eq p
  have hpos : (0:ℚ) < totalScore p := by rw [htot]; norm_num
  have hr : ∀ e, ratioPct p e =
      ((round (10 * (elementScores p e / 105 * 100)) : ℤ) : ℚ) / 10 := by
    intro e
    unfold ratioPct round1
    rw [if_pos hpos, htot]
  have hsum : elementScores p wood + elementScores p fire +
      elementScores p earth + elementScores p metal +
      elementScores p water = 105 := by
    have h := htot
    unfold totalScore ELEMENTS at h
    simp only [List.map_cons, List.map_nil, List.sum_cons, List.sum_nil,
      add_zero] at h
    linarith
  have hb : ∀ e, |10 * (elementScores p e / 105 * 100) -
      ((round (10 * (elementScores p e / 105 * 100)) : ℤ) : ℚ)| ≤ 1 / 2 :=
    fun e => abs_sub_round _
  obtain ⟨l1, u1⟩ := abs_le.mp (hb wood)
  obtain ⟨l2, u2⟩ := abs_le.mp (hb fire)
  obtain ⟨l3, u3⟩ := abs_le.mp (hb earth)
  obtain ⟨l4, u4⟩ := abs_le.mp (hb metal)
  obtain ⟨l5, u5⟩ := abs_le.mp (hb water)
  set n1 := round (10 * (elementScores p wood / 105 * 100)) with hn1
  set n2 := round (10 * (elementScores p fire / 105 * 100)) with hn2
  set n3 := round (10 * (elementScores p earth / 105 * 100)) with hn3
  set n4 := round (10 * (elementScores p metal / 105 * 100)) with hn4
  set n5 := round (10 * (elementScores p water / 105 * 100)) with hn5
  have hzub : ((n1 + n2 + n3 + n4 + n5 : ℤ) : ℚ) < 1003 := by
    push_cast
    linarith
  have hzlb : (997 : ℚ) < ((n1 + n2 + n3 + n4 + n5 : ℤ) : ℚ) := by
    push_cast
    linarith
  have hub : n1 + n2 + n3 + n4 + n5 ≤ 1002 := by
    have h1 : n1 + n2 + n3 + n4 + n5 < 1003 := by exact_mod_cast hzub
    omega
  have hlb : 998 ≤ n1 + n2 + n3 + n4 + n5 := by
    have h1 : (997 : ℤ) < n1 + n2 + n3 + n4 + n5 := by exact_mod_cast hzlb
    omega
  have hcastub : ((n1 + n2 + n3 + n4 + n5 : ℤ) : ℚ) ≤ 1002 := by
    exact_mod_cast hub
  have hcastlb : (998 : ℚ) ≤ ((n1 + n2 + n3 + n4 + n5 : ℤ) : ℚ) := by
    exact_mod_cast hlb
  simp only [ELEMENTS, List.map_cons, List.map_nil, List.sum_cons,
    List.sum_nil, add_zero, hr]
  rw [abs_le]
  push_cast at hcastub hcastlb
  constructor <;> linarith

lemma elementScores_sum (p : FourPillars) :
    elementScores p wood + elementScores p fire + elementScores p earth +
      elementScores p metal + elementScores p water = 105 := by
  have h := totalScore_eq p
  unfold totalScore ELEMENTS at h
  simp only [List.map_cons, List.map_nil, List.sum_cons, List.sum_nil,
    add_zero] at h
  linarith

lemma round1_lb (x : ℚ) : x - 1 / 20 ≤ round1 x := by
  have h := (abs_le.mp (abs_sub_round (10 * x))).2
  unfold round1
  linarith

lemma round1_nonneg {x : ℚ} (hx : 0 ≤ x) : 0 ≤ round1 x := by
  have h := (abs_le.mp (abs_sub_round (10 * x))).2
  have h2 : (-1 : ℚ) < ((round (10 * x) : ℤ) : ℚ) := by linarith
  have h3 : (0 : ℤ) ≤ round (10 * x) := by
    have h4 : (-1 : ℤ) < round (10 * x) := by exact_mod_cast h2
    omega
  have h5 : (0 : ℚ) ≤ ((round (10 * x) : ℤ) : ℚ) := by exact_mod_cast h3
  unfold round1
  linarith

lemma scoreR_nonneg (p : FourPillars) (e : Element) : 0 ≤ scoreR p e :=
  round1_nonneg (elementScores_nonneg p e)

lemma totalScoreR_eq (p : FourPillars) : totalScoreR p = 105 := by
  unfold totalScoreR
  rw [totalScore_eq]
  unfold round1
  norm_num [round_eq]

lemma supportingScore_eq (p : FourPillars) :
    ∃ g, ELEMENT_GENERATES g = dayElement p ∧ g ≠ dayElement p ∧
      supportingScore p = scoreR p (dayElement p) + scoreR p g := by
  cases hd : dayElement p with
  | wood =>
      refine ⟨water, rfl, by decide, ?_⟩
      unfold supportingScore
      rw [hd]
      simp [ELEMENTS, ELEMENT_GENERATES]
  | fire =>
      refine ⟨wood, rfl, by decide, ?_⟩
      unfold supportingScore
      rw [hd]
      simp [ELEMENTS, ELEMENT_GENERATES]
  | earth =>
      refine ⟨fire, rfl, by decide, ?_⟩
      unfold supportingScore
      rw [hd]
      simp [ELEMENTS, ELEMENT_GENERATES]
  | metal =>
      refine ⟨earth, rfl, by decide, ?_⟩
      unfold supportingScore
      rw [hd]
      simp [ELEMENTS, ELEMENT_GENERATES]
  | water =>
      refine ⟨metal, rfl, by decide, ?_⟩
      unfold supportingScore
      rw [hd]
      simp [ELEMENTS, ELEMENT_GENERATES]

lemma exists_other_pos (p : FourPillars) (h55 : supportPct p < 55) :
    ∃ e, e ≠ dayElement p ∧ 0 < scoreR p e := by
  by_contra hno
  push_neg at hno
  have hz : ∀ e, e ≠ dayElement p → scoreR p e = 0 :=
    fun e he => le_antisymm (hno e he) (scoreR_nonneg p e)
  have hsmall : ∀ e, e ≠ dayElement p → elementScores p e ≤ 1 / 20 := by
    intro e he
    have h1 := round1_lb (elementScores p e)
    have h2 : round1 (elementScores p e) = 0 := hz e he
    rw [h2] at h1
    linarith
  have hsum := elementScores_sum p
  have hday : 104 ≤ elementScores p (dayElement p) := by
    cases hd : dayElement p with
    | wood =>
        have e1 := hsmall fire (by rw [hd]; decide)
        have e2 := hsmall earth (by rw [hd]; decide)
        have e3 := hsmall metal (by rw [hd]; decide)
        have e4 := hsmall water (by rw [hd]; decide)
        linarith
    | fire =>
        have e1 := hsmall wood (by rw [hd]; decide)
        have e2 := hsmall earth (by rw [hd]; decide)
        have e3 := hsmall metal (by rw [hd]; decide)
        have e4 := hsmall water (by rw [hd]; decide)
        linarith
    | earth =>
        have e1 := hsmall wood (by rw [hd]; decide)
        have e2 := hsmall fire (by rw [hd]; decide)
        have e3 := hsmall metal (by rw [hd]; decide)
        have e4 := hsmall water (by rw [hd]; decide)
        linarith
    | metal =>
        have e1 := hsmall wood (by rw [hd]; decide)
        have e2 := hsmall fire (by rw [hd]; decide)
        have e3 := hsmall earth (by rw [hd]; decide)
        have e4 := hsmall water (by rw [hd]; decide)
        linarith
    | water =>
        have e1 := hsmall wood (by rw [hd]; decide)
        have e2 := hsmall fire (by rw [hd]; decide)
        have e3 := hsmall earth (by rw [hd]; decide)
        have e4 := hsmall metal (by rw [hd]; decide)
        linarith
  obtain ⟨g, hgen, hgne, hsupp⟩ := supportingScore_eq p
  have hsd : 2079 / 20 ≤ scoreR p (dayElement p) := by
    have h1 := round1_lb (elementScores p (dayElement p))
    have h2 : scoreR p (dayElement p) =
        round1 (elementScores p (dayElement p)) := rfl
    rw [← h2] at h1
    linarith
  have hzg : scoreR p g = 0 := hz g hgne
  have hsupport : 2079 / 20 ≤ supportingScore p := by
    rw [hsupp, hzg]
    linarith
  have htotR := totalScoreR_eq p
  have hsp : supportPct p = round1 (supportingScore p / 105 * 100) := by
    unfold supportPct
    rw [htotR, if_pos (by norm_num : (0:ℚ) < 105)]
  have hlb := round1_lb (supportingScore p / 105 * 100)
  rw [hsp] at h55
  linarith

lemma balanced_lt_55 {r : ℚ} {d : ℕ}
    (h : strengthLevelOf r d = Level.balanced) : r < 55 := by
  unfold strengthLevelOf strengthLevelCore at h
  split_ifs at h
  linarith

lemma pyArgmin_le (f : Element → ℚ) :
    ∀ (l : List Element) (x : Element),
      f (pyArgmin f x l) ≤ f x ∧ ∀ y ∈ l, f (pyArgmin f x l) ≤ f y := by
  intro l
  induction l with
  | nil =>
      intro x
      exact ⟨le_refl _, fun y hy => absurd hy (List.not_mem_nil y)⟩
  | cons z zs ih =>
      intro x
      unfold pyArgmin
      rw [List.foldl_cons]
      by_cases h : f z < f x
      · rw [if_pos h]
        obtain ⟨h1, h2⟩ := ih z
        refine ⟨le_trans h1 (le_of_lt h), fun y hy => ?_⟩
        rcases List.mem_cons.mp hy with rfl | hy
        · exact h1
        · exact h2 y hy
      · rw [if_neg h]
        obtain ⟨h1, h2⟩ := ih x
        refine ⟨h1, fun y hy => ?_⟩
        rcases List.mem_cons.mp hy with rfl | hy
        · exact le_trans h1 (not_lt.mp h)
        · exact h2 y hy

lemma pyArgmax_ge (f : Element → ℚ) :
    ∀ (l : List Element) (x : Element),
      f x ≤ f (pyArgmax f x l) ∧ ∀ y ∈ l, f y ≤ f (pyArgmax f x l) := by
  intro l
  induction l with
  | nil =>
      intro x
      exact ⟨le_refl _, fun y hy => absurd hy (List.not_mem_nil y)⟩
  | cons z zs ih =>
      intro x
      unfold pyArgmax
      rw [List.foldl_cons]
      by_cases h : f x < f z
      · rw [if_pos h]
        obtain ⟨h1, h2⟩ := ih z
        refine ⟨le_trans (le_of_lt h) h1, fun y hy => ?_⟩
        rcases List.mem_cons.mp hy with rfl | hy
        · exact h1
        · exact h2 y hy
      · rw [if_neg h]
        obtain ⟨h1, h2⟩ := ih x
        refine ⟨h1, fun y hy => ?_⟩
        rcases List.mem_cons.mp hy with rfl | hy
        · exact le_trans (not_lt.mp h) h1
        · exact h2 y hy

lemma element_cases : ∀ e : Element,
    e = wood ∨ e ∈ [fire, earth, metal, water] := by
  decide

/-- C2 (amended): for every Chart whose strength verdict is balanced and
on which neither conflict mediation nor the extreme-temperature override
triggers, the primary-need element is a globally lowest-(rounded)-scored
element, the ally is the element that the primary-need element *generates*
(not its generator, as the claim stated), and the harmful element is a
non-day element of globally maximal (rounded) score. -/
theorem c2_balanced_selection (p : FourPillars)
    (hb : strengthLevel p = Level.balanced)
    (ht : checkTonggwan p = none)
    (hj1 : MONTH_TEMPERATURE p.month.branch ≠ Temperature.veryHot)
    (hj2 : MONTH_TEMPERATURE p.month.branch ≠ Temperature.veryCold) :
    (∀ e, scoreR p (selectYongShin p).yongShin ≤ scoreR p e) ∧
    (selectYongShin p).heeShin =
      ELEMENT_GENERATES (selectYongShin p).yongShin ∧
    (selectYongShin p).giShin ≠ dayElement p ∧
    (∀ e, e ≠ dayElement p →
      scoreR p e ≤ scoreR p (selectYongShin p).giShin) := by
  have hext : ¬(MONTH_TEMPERATURE p.month.branch = Temperature.veryHot ∨
      MONTH_TEMPERATURE p.month.branch = Temperature.veryCold) := by
    rintro (h | h)
    · exact hj1 h
    · exact hj2 h
  have hyong : (selectYongShin p).yongShin =
      pyArgmin (scoreR p) wood [fire, earth, metal, water] := by
    cases hj : checkJohu (MONTH_TEMPERATURE p.month.branch) with
    | none => simp [selectYongShin, ht, hj, selectByStrength, hb]
    | some e => simp [selectYongShin, ht, hj, hext, selectByStrength, hb]
  have hhee : (selectYongShin p).heeShin =
      ELEMENT_GENERATES (pyArgmin (scoreR p) wood [fire, earth, metal, water]) := by
    cases hj : checkJohu (MONTH_TEMPERATURE p.month.branch) with
    | none => simp [selectYongShin, ht, hj, selectByStrength, hb]
    | some e => simp [selectYongShin, ht, hj, hext, selectByStrength, hb]
  have hgi : (selectYongShin p).giShin =
      pyArgmax (fun e => if e = dayElement p then 0 else scoreR p e)
        wood [fire, earth, metal, water] := by
    cases hj : checkJohu (MONTH_TEMPERATURE p.month.branch) with
    | none => simp [selectYongShin, ht, hj, selectByStrength, hb]
    | some e => simp [selectYongShin, ht, hj, hext, selectByStrength, hb]
  have h55 : supportPct p < 55 := balanced_lt_55 hb
  obtain ⟨hmin1, hmin2⟩ :=
    pyArgmin_le (scoreR p) [fire, earth, metal, water] wood
  obtain ⟨hmax1, hmax2⟩ :=
    pyArgmax_ge (fun e => if e = dayElement p then 0 else scoreR p e)
      [fire, earth, metal, water] wood
  obtain ⟨e0, he0, hpos0⟩ := exists_other_pos p h55
  have hKe : ∀ e : Element,
      (if e = dayElement p then 0 else scoreR p e) ≤
      (if pyArgmax (fun e => if e = dayElement p then 0 else scoreR p e)
          wood [fire, earth, metal, water] = dayElement p then 0
        else scoreR p (pyArgmax
          (fun e => if e = dayElement p then 0 else scoreR p e)
          wood [fire, earth, metal, water])) := by
    intro e
    rcases element_cases e with rfl | hm
    · exact hmax1
    · exact hmax2 e hm
  have hgne : pyArgmax (fun e => if e = dayElement p then 0 else scoreR p e)
      wood [fire, earth, metal, water] ≠ dayElement p := by
    intro hgd
    have h1 := hKe e0
    rw [if_neg he0, if_pos hgd] at h1
    linarith
  refine ⟨?_, ?_, ?_, ?_⟩
  · intro e
    rw [hyong]
    rcases element_cases e with rfl | hm
    · exact hmin1
    · exact hmin2 e hm
  · rw [hhee, hyong]
  · rw [hgi]
    exact hgne
  · intro e he
    rw [hgi]
    have h1 := hKe e
    rw [if_neg he, if_neg hgne] at h1
    exact h1

/-- C2 witness: the balanced Chart 甲子/戊戌/甲寅/壬子 satisfies the
amended selection properties; in particular its ally element is what the
primary-need element generates. -/
theorem c2_witness :
    (selectYongShin chartC2ce).heeShin =
      ELEMENT_GENERATES (selectYongShin chartC2ce).yongShin :=
  (c2_balanced_selection chartC2ce (by with_unfolding_all decide)
    (by with_unfolding_all decide) (by decide) (by decide)).2.1

end Saju
